import Mathlib

/-!
Shallow embedding of the sandboxing subsystem of the goose repository.

Sources embedded:
* `crates/goose-cli/src/sandbox.rs`   — self-reexec launcher (`maybe_enter_sandbox`,
  `enter_seatbelt_sandbox`): the argv filter loop and the inline seatbelt policy text.
* `crates/goose-mcp/src/developer/sandbox.rs` — policy model (`SandboxConfig`,
  `SandboxMethod`, `SeatbeltProfile`), the resolver `parse_sandbox_config`, and the
  per-command wrapper `SandboxWrapper::wrap_command`.

Modelling conventions: the process environment is a function `String → Option String`
(Rust `env::var` returning `Ok`/`Err`); `cfg!(target_os = "macos")` is a Boolean
parameter `isMacos`; `which::which` availability and file existence are Boolean
inputs; a `tokio::process::Command` is its program name plus ordered argument list.
Rust `String` helpers that Lean core implements by well-founded recursion are
re-expressed over `String.data` (the character list) with identical semantics, so
that every definition evaluates by kernel reduction.
-/

/-- Character-list implementation of Rust `str::to_lowercase` as used by the
parsers (ASCII case mapping via `Char.toLower`, applied to every character). -/
def strToLower (s : String) : String :=
  ⟨s.data.map Char.toLower⟩

/-- Rust `str::starts_with('-')`: true iff the first character is `'-'`. -/
def startsWithDash (s : String) : Bool :=
  match s.data with
  | [] => false
  | c :: _ => c = '-'

/-- Rust `str::replace('-', "_")`: replace every dash with an underscore. -/
def replaceDashUnderscore (s : String) : String :=
  ⟨s.data.map (fun c => if c = '-' then '_' else c)⟩

/-- Rust `str::is_empty`. -/
def strIsEmpty (s : String) : Bool :=
  s.data.isEmpty

/-- Rust `SandboxMethod` from `goose-mcp/src/developer/sandbox.rs` lines 17–22:
closed set of sandbox backends. -/
inductive SandboxMethod where
  | None
  | Seatbelt
  | Docker
  | Podman
deriving DecidableEq, Repr

/-- Rust `SeatbeltProfile` from `goose-mcp/src/developer/sandbox.rs` lines 25–30. -/
inductive SeatbeltProfile where
  | PermissiveOpen
  | PermissiveClosed
  | RestrictiveOpen
  | RestrictiveClosed
deriving DecidableEq, Repr

/-- Rust `SandboxConfig` from `goose-mcp/src/developer/sandbox.rs` lines 10–14. -/
structure SandboxConfig where
  enabled : Bool
  method : SandboxMethod
  profile : SeatbeltProfile
deriving DecidableEq, Repr

/-- Rust `impl Default for SandboxConfig` (lines 32–40): disabled, method None,
profile PermissiveOpen. -/
def SandboxConfig.default : SandboxConfig :=
  { enabled := false
    method := SandboxMethod.None
    profile := SeatbeltProfile.PermissiveOpen }

/-- Rust `impl FromStr for SandboxMethod` (lines 42–54): lowercase the input and
match the known method names; unknown strings produce an error message. -/
def SandboxMethod.fromStr (s : String) : Except String SandboxMethod :=
  let l := strToLower s
  if l = "none" ∨ l = "false" ∨ l = "disabled" then .ok .None
  else if l = "seatbelt" ∨ l = "sandbox-exec" then .ok .Seatbelt
  else if l = "docker" then .ok .Docker
  else if l = "podman" then .ok .Podman
  else .error ("Unknown sandbox method: " ++ s)

/-- Rust `impl FromStr for SeatbeltProfile` (lines 56–68): lowercase, replace dashes
with underscores, and match the four profile names (with or without the
underscore). -/
def SeatbeltProfile.fromStr (s : String) : Except String SeatbeltProfile :=
  let l := replaceDashUnderscore (strToLower s)
  if l = "permissive_open" ∨ l = "permissiveopen" then .ok .PermissiveOpen
  else if l = "permissive_closed" ∨ l = "permissiveclosed" then .ok .PermissiveClosed
  else if l = "restrictive_open" ∨ l = "restrictiveopen" then .ok .RestrictiveOpen
  else if l = "restrictive_closed" ∨ l = "restrictiveclosed" then .ok .RestrictiveClosed
  else .error ("Unknown seatbelt profile: " ++ s)

/-- Rust `SeatbeltProfile::profile_filename` (lines 70–79). -/
def SeatbeltProfile.profile_filename : SeatbeltProfile → String
  | .PermissiveOpen => "permissive-open.sb"
  | .PermissiveClosed => "permissive-closed.sb"
  | .RestrictiveOpen => "restrictive-open.sb"
  | .RestrictiveClosed => "restrictive-closed.sb"

/-- The process environment, as read by `std::env::var`: a partial map from
variable name to value. -/
abbrev EnvMap : Type := String → Option String

/-- First block of `parse_sandbox_config` (lines 261–277): interpret the
`GOOSE_SANDBOX` environment variable.  A parseable method name sets method and
enabled; the literal `true` (case-insensitive) picks the platform default
(Seatbelt on macOS, otherwise stays disabled with method None); anything else
leaves the config unchanged. -/
def applyEnvSandbox (env : EnvMap) (isMacos : Bool) (config : SandboxConfig) :
    SandboxConfig :=
  match env "GOOSE_SANDBOX" with
  | some sandbox_enabled =>
    match SandboxMethod.fromStr sandbox_enabled with
    | .ok method =>
      { config with enabled := method ≠ SandboxMethod.None, method := method }
    | .error _ =>
      if strToLower sandbox_enabled = "true" then
        if isMacos then
          { config with enabled := true, method := SandboxMethod.Seatbelt }
        else
          { config with method := SandboxMethod.None, enabled := false }
      else config
  | none => config

/-- Second block of `parse_sandbox_config` (lines 280–284): a parseable
`SEATBELT_PROFILE` environment value overrides the profile. -/
def applyEnvProfile (env : EnvMap) (config : SandboxConfig) : SandboxConfig :=
  match env "SEATBELT_PROFILE" with
  | some profile_str =>
    match SeatbeltProfile.fromStr profile_str with
    | .ok profile => { config with profile := profile }
    | .error _ => config
  | none => config

/-- Third block of `parse_sandbox_config` (lines 287–308): the CLI sandbox
argument overrides the environment.  `some (some m)` is an explicit method
string (ignored when unparseable); `some none` is the bare flag, enabling the
platform default; `none` means the flag was absent. -/
def applyCliSandbox (sandbox_arg : Option (Option String)) (isMacos : Bool)
    (config : SandboxConfig) : SandboxConfig :=
  match sandbox_arg with
  | some sandbox_opt =>
    match sandbox_opt with
    | some method_str =>
      match SandboxMethod.fromStr method_str with
      | .ok method =>
        { config with enabled := method ≠ SandboxMethod.None, method := method }
      | .error _ => config
    | none =>
      if isMacos then
        { config with enabled := true, method := SandboxMethod.Seatbelt }
      else
        { config with enabled := false, method := SandboxMethod.None }
  | none => config

/-- Fourth block of `parse_sandbox_config` (lines 311–315): a parseable CLI
profile string overrides the profile. -/
def applyCliProfile (profile_arg : Option String) (config : SandboxConfig) :
    SandboxConfig :=
  match profile_arg with
  | some profile_str =>
    match SeatbeltProfile.fromStr profile_str with
    | .ok profile => { config with profile := profile }
    | .error _ => config
  | none => config

/-- Rust `parse_sandbox_config` (lines 254–318): start from the default config and
apply, in order, the `GOOSE_SANDBOX` environment block, the `SEATBELT_PROFILE`
environment block, the CLI sandbox argument block, and the CLI profile block. -/
def parse_sandbox_config (env : EnvMap) (isMacos : Bool)
    (sandbox_arg : Option (Option String)) (profile_arg : Option String) :
    SandboxConfig :=
  applyCliProfile profile_arg
    (applyCliSandbox sandbox_arg isMacos
      (applyEnvProfile env
        (applyEnvSandbox env isMacos SandboxConfig.default)))

/-! ## Self-reexec launcher (`goose-cli/src/sandbox.rs`) -/

/-- The observable outcome of `maybe_enter_sandbox` (lines 14–43).  Every
constructor except `enterSeatbelt` corresponds to a branch that returns
`Ok(())` without spawning anything; `enterSeatbelt` is the sole branch that
calls `enter_seatbelt_sandbox` (the only function that spawns a process). -/
inductive LaunchOutcome where
  | alreadySandboxed
  | noMethodRequested
  | enterSeatbelt
  | dockerStubWarning
  | unsupportedWarning (other : String)
deriving DecidableEq, Repr

/-- True exactly for the outcome whose branch may spawn a process
(`enter_seatbelt_sandbox` spawns `sandbox-exec` on macOS; every other branch of
`maybe_enter_sandbox` only prints a warning and returns `Ok(())`). -/
def LaunchOutcome.maySpawn : LaunchOutcome → Bool
  | .enterSeatbelt => true
  | _ => false

/-- Rust `maybe_enter_sandbox` (lines 14–43): return immediately when
`GOOSE_SANDBOX_ACTIVE` is set; otherwise take the method from the CLI flag,
falling back to `GOOSE_SANDBOX`, defaulting to the empty string; dispatch on
the exact method string. -/
def maybe_enter_sandbox (env : EnvMap) (method_flag : Option String) :
    LaunchOutcome :=
  if (env "GOOSE_SANDBOX_ACTIVE").isSome then
    .alreadySandboxed
  else
    let method :=
      (match method_flag with
       | some m => some m
       | none => env "GOOSE_SANDBOX").getD ""
    if strIsEmpty method then
      .noMethodRequested
    else if method = "seatbelt" ∨ method = "sandbox-exec" ∨ method = "true" ∨
        method = "1" then
      .enterSeatbelt
    else if method = "docker" ∨ method = "podman" then
      .dockerStubWarning
    else
      .unsupportedWarning method

/-- Flag-removal step of the argv filter (lines 57–58 of
`enter_seatbelt_sandbox`): `args.remove(i)` drops the flag itself, and the
argument now at position `i` is also removed when it exists and does not start
with `-`. -/
def eraseFlagAt (args : List String) (i : Nat) : List String :=
  let args1 := args.eraseIdx i
  if h1 : i < args1.length then
    if startsWithDash args1[i] then args1 else args1.eraseIdx i
  else args1

/-- The argv-filtering while loop of `enter_seatbelt_sandbox` (lines 53–62),
index-for-index: at position `i`, a `-s`/`--sandbox` argument is removed
(together with a following non-dash value, see `eraseFlagAt`) and scanning
continues at the same index; any other argument advances the index. -/
def filterLoop (args : List String) (i : Nat) : List String :=
  if h : i < args.length then
    if args[i] = "-s" ∨ args[i] = "--sandbox" then
      filterLoop (eraseFlagAt args i) i
    else
      filterLoop args (i + 1)
  else args
termination_by args.length - i
decreasing_by
  · have h1 : (args.eraseIdx i).length = args.length - 1 :=
      List.length_eraseIdx_of_lt h
    have h2 : (eraseFlagAt args i).length ≤ (args.eraseIdx i).length := by
      simp only [eraseFlagAt]
      split
      · split
        · exact Nat.le_refl _
        · exact List.length_eraseIdx_le _ _
      · exact Nat.le_refl _
    omega
  · omega

/-- The argv filter of `enter_seatbelt_sandbox`: the while loop started at
index 0 on the argument vector (Rust `std::env::args().skip(1)`). -/
def filter_sandbox_args (args : List String) : List String :=
  filterLoop args 0

/-- Structural restatement of the filter loop, proved equal to
`filter_sandbox_args` below: removing at the scan position and rescanning the
same index is recursion on the remainder of the list. -/
def filterArgsRec : List String → List String
  | [] => []
  | [a] => if a = "-s" ∨ a = "--sandbox" then [] else [a]
  | a :: b :: rest2 =>
    if a = "-s" ∨ a = "--sandbox" then
      if startsWithDash b then filterArgsRec (b :: rest2) else filterArgsRec rest2
    else a :: filterArgsRec (b :: rest2)

/-- Inline seatbelt policy text for the `permissive-open` profile, lines 67–72
of `enter_seatbelt_sandbox`: allow everything, deny all file writes, then
re-allow file writes under the current working directory and the user's
`~/.local/state/goose` and `~/.local/share/goose` subtrees. -/
def permissiveOpenPolicyText (cwd home : String) : String :=
  "(version 1)\n(allow default)\n(deny file-write*)\n(allow file-write* (subpath \""
    ++ cwd
    ++ "\"))\n(allow file-write* (subpath \""
    ++ (home ++ "/.local/state/goose")
    ++ "\"))\n(allow file-write* (subpath \""
    ++ (home ++ "/.local/share/goose")
    ++ "\"))\n"

/-- Split a string at newline characters (clause-per-line view of the policy
text; the generated text separates clauses with `\n`). -/
def splitAtNewlines (s : String) : List String :=
  (s.data.splitOn '\n').map fun cs => ⟨cs⟩

/-- A policy line that is a file-write allow clause: it starts with
`(allow file-write*`. -/
def isFileWriteAllowClause (l : String) : Bool :=
  "(allow file-write*".data.isPrefixOf l.data

/-- A policy line that is the universal file-write deny clause. -/
def isFileWriteDenyClause (l : String) : Bool :=
  l = "(deny file-write*)"

/-! ## Per-command wrapper (`goose-mcp/src/developer/sandbox.rs`) -/

/-- Modelled from the spec: the shell configuration consumed by the command
wrapper — "a 'shell configuration' value (executable name + fixed argument
list) supplied by the command-execution subsystem".  The defining crate file
(`developer/shell.rs`) is not in the tree; the two fields are exactly those the
wrapper reads (`shell_config.executable`, `shell_config.args`). -/
structure ShellConfig where
  executable : String
  args : List String
deriving DecidableEq, Repr

/-- A process command description: program name plus ordered argument list
(the observable content of a `tokio::process::Command` built by the wrapper). -/
structure Cmd where
  program : String
  args : List String
deriving DecidableEq, Repr

/-- Ambient system facts read by the wrapper: `cfg!(target_os = "macos")`,
`std::env::consts::OS`, `which::which("sandbox-exec")` success, the current
working directory, and on-disk file existence. -/
structure SysEnv where
  isMacos : Bool
  osName : String
  sandboxExecAvailable : Bool
  cwd : String
  fileExists : String → Bool

/-- Rust `SandboxWrapper` fields (lines 81–85): the resolved config plus the
captured project and home directories. -/
structure SandboxWrapper where
  config : SandboxConfig
  project_dir : String
  home_dir : String

/-- Rust `SandboxWrapper::create_direct_command` (lines 141–146): the shell
executable, its fixed arguments, then the command string. -/
def create_direct_command (shell_config : ShellConfig) (command : String) : Cmd :=
  { program := shell_config.executable
    args := shell_config.args ++ [command] }

/-- The fixed on-disk location of a profile asset (lines 188–196):
`<cwd>/crates/goose-mcp/src/developer/profiles/<profile_filename>`. -/
def seatbeltProfileAssetPath (cwd : String) (profile : SeatbeltProfile) : String :=
  cwd ++ "/crates/goose-mcp/src/developer/profiles/" ++ profile.profile_filename

/-- Rust `SandboxWrapper::get_seatbelt_profile_path` (lines 182–203): build the
asset path by filename convention and fail, naming the expected path, when the
file does not exist. -/
def get_seatbelt_profile_path (sys : SysEnv) (w : SandboxWrapper) :
    Except String String :=
  let profile_path := seatbeltProfileAssetPath sys.cwd w.config.profile
  if sys.fileExists profile_path then
    .ok profile_path
  else
    .error ("Seatbelt profile not found: " ++ profile_path)

/-- Error text of the `SandboxMethod::Docker` arm of `wrap_command`
(lines 120–128). -/
def dockerNotImplementedMsg (osName : String) : String :=
  "Docker sandboxing is not yet implemented. Available options:\n- On macOS: Use --sandbox=seatbelt\n- To disable: Remove --sandbox flag or unset GOOSE_SANDBOX\nCurrent platform: "
    ++ osName

/-- Error text of the `SandboxMethod::Podman` arm of `wrap_command`
(lines 129–137). -/
def podmanNotImplementedMsg (osName : String) : String :=
  "Podman sandboxing is not yet implemented. Available options:\n- On macOS: Use --sandbox=seatbelt\n- To disable: Remove --sandbox flag or unset GOOSE_SANDBOX\nCurrent platform: "
    ++ osName

/-- Rust `SandboxWrapper::create_seatbelt_command` (lines 148–180): check platform
and `sandbox-exec` availability, resolve the profile asset path, then build the
`sandbox-exec -f <profile> -D project_dir=… -D home_dir=… <shell…> <command>`
invocation. -/
def create_seatbelt_command (sys : SysEnv) (w : SandboxWrapper)
    (shell_config : ShellConfig) (command : String) : Except String Cmd :=
  if ¬sys.isMacos then
    .error ("Seatbelt sandboxing is only available on macOS. Current platform: "
      ++ sys.osName
      ++ ". To disable sandboxing, remove the --sandbox flag or unset GOOSE_SANDBOX environment variable.")
  else if ¬sys.sandboxExecAvailable then
    .error "sandbox-exec command not found. Seatbelt sandboxing requires macOS with sandbox-exec available. This usually indicates an incomplete macOS installation."
  else
    match get_seatbelt_profile_path sys w with
    | .error e => .error e
    | .ok profile_path =>
      .ok { program := "sandbox-exec"
            args := ["-f", profile_path,
                     "-D", "project_dir=" ++ w.project_dir,
                     "-D", "home_dir=" ++ w.home_dir,
                     shell_config.executable]
                    ++ shell_config.args ++ [command] }

/-- Rust `SandboxWrapper::wrap_command` (lines 112–139): direct command when
disabled or method None; Seatbelt builds the sandboxed invocation; Docker and
Podman fail with their not-implemented messages. -/
def wrap_command (sys : SysEnv) (w : SandboxWrapper)
    (shell_config : ShellConfig) (command : String) : Except String Cmd :=
  if ¬w.config.enabled ∨ w.config.method = SandboxMethod.None then
    .ok (create_direct_command shell_config command)
  else
    match w.config.method with
    | .Seatbelt => create_seatbelt_command sys w shell_config command
    | .None => .ok (create_direct_command shell_config command)
    | .Docker => .error (dockerNotImplementedMsg sys.osName)
    | .Podman => .error (podmanNotImplementedMsg sys.osName)

/-- Line view of the inline permissive-open policy text at the concrete
directories `/work` and `/home/u` (clauses are newline-separated). -/
def permissiveOpenLines : List String :=
  splitAtNewlines (permissiveOpenPolicyText "/work" "/home/u")

/-- Concrete environment: sentinel set alongside a requested method. -/
def envSentinel : EnvMap := fun k =>
  if k = "GOOSE_SANDBOX_ACTIVE" then some "1"
  else if k = "GOOSE_SANDBOX" then some "docker"
  else Option.none

/-- Concrete environment: only a mixed-case `GOOSE_SANDBOX=TrUe`. -/
def envTrueMixed : EnvMap := fun k =>
  if k = "GOOSE_SANDBOX" then some "TrUe" else Option.none

/-- Concrete environment: method and profile values that conflict with the CLI
arguments used in the precedence instantiation. -/
def envConflicting : EnvMap := fun k =>
  if k = "GOOSE_SANDBOX" then some "docker"
  else if k = "SEATBELT_PROFILE" then some "restrictive-open"
  else Option.none

/-- Concrete environment with no variables set. -/
def envEmpty : EnvMap := fun _ => Option.none

/-- Concrete system: macOS with `sandbox-exec` present but no profile assets
on disk. -/
def sysNoAssets : SysEnv :=
  { isMacos := true
    osName := "macos"
    sandboxExecAvailable := true
    cwd := "/repo"
    fileExists := fun _ => false }

/-- Concrete system: a Linux host. -/
def sysLinux : SysEnv :=
  { isMacos := false
    osName := "linux"
    sandboxExecAvailable := false
    cwd := "/work"
    fileExists := fun _ => false }

/-- Concrete wrapper: Seatbelt enabled with the restrictive-closed profile. -/
def wrapperSeatbeltRC : SandboxWrapper :=
  { config := { enabled := true
                method := SandboxMethod.Seatbelt
                profile := SeatbeltProfile.RestrictiveClosed }
    project_dir := "/repo"
    home_dir := "/home/u" }

/-- Concrete wrapper: Docker requested and enabled. -/
def wrapperDocker : SandboxWrapper :=
  { config := { enabled := true
                method := SandboxMethod.Docker
                profile := SeatbeltProfile.PermissiveOpen }
    project_dir := "/work"
    home_dir := "/home/u" }

/-- Concrete wrapper: the default (disabled) configuration. -/
def wrapperDisabled : SandboxWrapper :=
  { config := SandboxConfig.default
    project_dir := "/work"
    home_dir := "/home/u" }

/-- Concrete shell configuration. -/
def shellSh : ShellConfig :=
  { executable := "/bin/sh", args := ["-c"] }

/-! ## Helper lemmas -/

theorem filterLoop_of_le {args : List String} {i : Nat}
    (h : args.length ≤ i) : filterLoop args i = args := by
  rw [filterLoop]
  simp [Nat.not_lt.mpr h]

theorem filterLoop_append (suf pre : List String) :
    filterLoop (pre ++ suf) pre.length = pre ++ filterArgsRec suf := by
  match suf with
  | [] =>
    rw [List.append_nil, filterArgsRec, List.append_nil]
    exact filterLoop_of_le (Nat.le_refl _)
  | a :: rest =>
    have hlt : pre.length < (pre ++ a :: rest).length := by
      simp
    have hget : (pre ++ a :: rest)[pre.length] = a :=
      List.getElem_of_append rfl rfl
    have herase1 : (pre ++ a :: rest).eraseIdx pre.length = pre ++ rest := by
      rw [List.eraseIdx_append_of_length_le (Nat.le_refl _)]
      simp
    rw [filterLoop]
    simp only [hlt, dif_pos, hget]
    by_cases hflag : a = "-s" ∨ a = "--sandbox"
    · simp only [hflag, if_pos]
      match rest with
      | [] =>
        have : eraseFlagAt (pre ++ [a]) pre.length = pre := by
          simp only [eraseFlagAt, herase1, List.append_nil]
          simp
        rw [this, filterLoop_of_le (Nat.le_refl _), filterArgsRec]
        simp [hflag]
      | b :: rest2 =>
        have hlt2 : pre.length < (pre ++ b :: rest2).length := by simp
        have hgetb : (pre ++ b :: rest2)[pre.length] = b :=
          List.getElem_of_append rfl rfl
        have herase2 : (pre ++ b :: rest2).eraseIdx pre.length = pre ++ rest2 := by
          rw [List.eraseIdx_append_of_length_le (Nat.le_refl _)]
          simp
        by_cases hdash : startsWithDash b
        · have : eraseFlagAt (pre ++ a :: b :: rest2) pre.length
              = pre ++ b :: rest2 := by
            simp only [eraseFlagAt, herase1]
            simp [hlt2, hgetb, hdash]
          rw [this, filterLoop_append (b :: rest2) pre, filterArgsRec]
          simp [hflag, hdash]
        · have : eraseFlagAt (pre ++ a :: b :: rest2) pre.length
              = pre ++ rest2 := by
            simp only [eraseFlagAt, herase1]
            simp [hlt2, hgetb, hdash, herase2]
          rw [this, filterLoop_append rest2 pre, filterArgsRec]
          simp [hflag, hdash]
    · simp only [hflag, if_neg, not_false_iff]
      have hsplit : pre ++ a :: rest = (pre ++ [a]) ++ rest := by simp
      have hlen : pre.length + 1 = (pre ++ [a]).length := by simp
      rw [hsplit, hlen, filterLoop_append rest (pre ++ [a])]
      match rest with
      | [] => simp [filterArgsRec, hflag]
      | b :: rest2 => simp [filterArgsRec, hflag]
termination_by suf.length
decreasing_by
  · simp
  · simp
    omega
  · simp

theorem filter_sandbox_args_eq_rec (args : List String) :
    filter_sandbox_args args = filterArgsRec args :=
  filterLoop_append args []

theorem filterArgsRec_cons_not_flag {a : String} (l : List String)
    (h : ¬(a = "-s" ∨ a = "--sandbox")) :
    filterArgsRec (a :: l) = a :: filterArgsRec l := by
  match l with
  | [] => simp [filterArgsRec, h]
  | b :: t => simp [filterArgsRec, h]

theorem filterArgsRec_no_flag {l : List String}
    (h : ∀ a ∈ l, ¬(a = "-s" ∨ a = "--sandbox")) : filterArgsRec l = l := by
  induction l with
  | nil => rfl
  | cons a t ih =>
    rw [filterArgsRec_cons_not_flag t (h a (List.mem_cons_self a t)),
      ih (fun x hx => h x (List.mem_cons_of_mem a hx))]

theorem filterArgsRec_append_no_flag (pre l : List String)
    (h : ∀ a ∈ pre, ¬(a = "-s" ∨ a = "--sandbox")) :
    filterArgsRec (pre ++ l) = pre ++ filterArgsRec l := by
  induction pre with
  | nil => rfl
  | cons a t ih =>
    rw [List.cons_append,
      filterArgsRec_cons_not_flag _ (h a (List.mem_cons_self a t)),
      ih (fun x hx => h x (List.mem_cons_of_mem a hx)), List.cons_append]

theorem applyEnvProfile_enabled (env : EnvMap) (c : SandboxConfig) :
    (applyEnvProfile env c).enabled = c.enabled := by
  cases hp : env "SEATBELT_PROFILE" with
  | none =>
    have e0 : applyEnvProfile env c = c := by
      unfold applyEnvProfile
      rw [hp]
    rw [e0]
  | some p =>
    have e0 : applyEnvProfile env c =
        (match SeatbeltProfile.fromStr p with
         | .ok profile => { c with profile := profile }
         | .error _ => c) := by
      unfold applyEnvProfile
      rw [hp]
    rw [e0]
    cases SeatbeltProfile.fromStr p <;> rfl

theorem applyEnvProfile_method (env : EnvMap) (c : SandboxConfig) :
    (applyEnvProfile env c).method = c.method := by
  cases hp : env "SEATBELT_PROFILE" with
  | none =>
    have e0 : applyEnvProfile env c = c := by
      unfold applyEnvProfile
      rw [hp]
    rw [e0]
  | some p =>
    have e0 : applyEnvProfile env c =
        (match SeatbeltProfile.fromStr p with
         | .ok profile => { c with profile := profile }
         | .error _ => c) := by
      unfold applyEnvProfile
      rw [hp]
    rw [e0]
    cases SeatbeltProfile.fromStr p <;> rfl

theorem applyCliProfile_enabled (profile_arg : Option String) (c : SandboxConfig) :
    (applyCliProfile profile_arg c).enabled = c.enabled := by
  match profile_arg with
  | Option.none => rfl
  | some p =>
    have e0 : applyCliProfile (some p) c =
        (match SeatbeltProfile.fromStr p with
         | .ok profile => { c with profile := profile }
         | .error _ => c) := rfl
    rw [e0]
    cases SeatbeltProfile.fromStr p <;> rfl

theorem applyCliProfile_method (profile_arg : Option String) (c : SandboxConfig) :
    (applyCliProfile profile_arg c).method = c.method := by
  match profile_arg with
  | Option.none => rfl
  | some p =>
    have e0 : applyCliProfile (some p) c =
        (match SeatbeltProfile.fromStr p with
         | .ok profile => { c with profile := profile }
         | .error _ => c) := rfl
    rw [e0]
    cases SeatbeltProfile.fromStr p <;> rfl

theorem applyCliSandbox_none (isMacos : Bool) (c : SandboxConfig) :
    applyCliSandbox Option.none isMacos c = c := rfl

theorem applyCliProfile_none (c : SandboxConfig) :
    applyCliProfile Option.none c = c := rfl

theorem applyCliSandbox_some_ok {m : String} {method : SandboxMethod}
    (isMacos : Bool) (c : SandboxConfig)
    (h : SandboxMethod.fromStr m = .ok method) :
    applyCliSandbox (some (some m)) isMacos c
      = { c with enabled := method ≠ SandboxMethod.None, method := method } := by
  have e0 : applyCliSandbox (some (some m)) isMacos c =
      (match SandboxMethod.fromStr m with
       | .ok method =>
         { c with enabled := method ≠ SandboxMethod.None, method := method }
       | .error _ => c) := rfl
  rw [e0, h]

theorem applyCliSandbox_some_err {m e : String} (isMacos : Bool)
    (c : SandboxConfig) (h : SandboxMethod.fromStr m = .error e) :
    applyCliSandbox (some (some m)) isMacos c = c := by
  have e0 : applyCliSandbox (some (some m)) isMacos c =
      (match SandboxMethod.fromStr m with
       | .ok method =>
         { c with enabled := method ≠ SandboxMethod.None, method := method }
       | .error _ => c) := rfl
  rw [e0, h]

theorem applyCliProfile_some_ok {p : String} {prof : SeatbeltProfile}
    (c : SandboxConfig) (h : SeatbeltProfile.fromStr p = .ok prof) :
    applyCliProfile (some p) c = { c with profile := prof } := by
  have e0 : applyCliProfile (some p) c =
      (match SeatbeltProfile.fromStr p with
       | .ok profile => { c with profile := profile }
       | .error _ => c) := rfl
  rw [e0, h]

theorem applyCliProfile_some_err {p e : String} (c : SandboxConfig)
    (h : SeatbeltProfile.fromStr p = .error e) :
    applyCliProfile (some p) c = c := by
  have e0 : applyCliProfile (some p) c =
      (match SeatbeltProfile.fromStr p with
       | .ok profile => { c with profile := profile }
       | .error _ => c) := rfl
  rw [e0, h]

theorem fromStr_of_toLower_true {s : String} (ht : strToLower s = "true") :
    SandboxMethod.fromStr s = .error ("Unknown sandbox method: " ++ s) := by
  have e0 : SandboxMethod.fromStr s =
      (if strToLower s = "none" ∨ strToLower s = "false" ∨ strToLower s = "disabled"
       then .ok .None
       else if strToLower s = "seatbelt" ∨ strToLower s = "sandbox-exec"
       then .ok .Seatbelt
       else if strToLower s = "docker" then .ok .Docker
       else if strToLower s = "podman" then .ok .Podman
       else .error ("Unknown sandbox method: " ++ s)) := rfl
  rw [e0, ht, if_neg (by decide), if_neg (by decide), if_neg (by decide),
    if_neg (by decide)]

theorem applyEnvSandbox_matched (env : EnvMap) (isMacos : Bool)
    (c : SandboxConfig) {s : String} (hg : env "GOOSE_SANDBOX" = some s) :
    applyEnvSandbox env isMacos c =
      (match SandboxMethod.fromStr s with
       | .ok method =>
         { c with enabled := method ≠ SandboxMethod.None, method := method }
       | .error _ =>
         if strToLower s = "true" then
           if isMacos then
             { c with enabled := true, method := SandboxMethod.Seatbelt }
           else
             { c with method := SandboxMethod.None, enabled := false }
         else c) := by
  unfold applyEnvSandbox
  rw [hg]

theorem applyEnvSandbox_unset (env : EnvMap) (isMacos : Bool)
    (c : SandboxConfig) (hg : env "GOOSE_SANDBOX" = Option.none) :
    applyEnvSandbox env isMacos c = c := by
  unfold applyEnvSandbox
  rw [hg]

theorem applyEnvSandbox_inv (env : EnvMap) (isMacos : Bool) (c : SandboxConfig)
    (hc : c.method = SandboxMethod.None → c.enabled = false) :
    (applyEnvSandbox env isMacos c).method = SandboxMethod.None →
      (applyEnvSandbox env isMacos c).enabled = false := by
  cases hg : env "GOOSE_SANDBOX" with
  | none =>
    rw [applyEnvSandbox_unset env isMacos c hg]
    exact hc
  | some s =>
    rw [applyEnvSandbox_matched env isMacos c hg]
    cases SandboxMethod.fromStr s with
    | ok method =>
      intro h
      have h' : method = SandboxMethod.None := h
      subst h'
      rfl
    | error e =>
      by_cases ht : strToLower s = "true"
      · rw [if_pos ht]
        cases isMacos with
        | false => intro _; rfl
        | true =>
          intro h
          have h' : SandboxMethod.Seatbelt = SandboxMethod.None := h
          exact absurd h' (by decide)
      · rw [if_neg ht]
        exact hc

theorem applyCliSandbox_inv (sandbox_arg : Option (Option String))
    (isMacos : Bool) (c : SandboxConfig)
    (hc : c.method = SandboxMethod.None → c.enabled = false) :
    (applyCliSandbox sandbox_arg isMacos c).method = SandboxMethod.None →
      (applyCliSandbox sandbox_arg isMacos c).enabled = false := by
  match sandbox_arg with
  | Option.none => exact hc
  | some Option.none =>
    cases isMacos with
    | false => intro _; rfl
    | true =>
      intro h
      have h' : SandboxMethod.Seatbelt = SandboxMethod.None := h
      exact absurd h' (by decide)
  | some (some m) =>
    have e0 : applyCliSandbox (some (some m)) isMacos c =
        (match SandboxMethod.fromStr m with
         | .ok method =>
           { c with enabled := method ≠ SandboxMethod.None, method := method }
         | .error _ => c) := rfl
    rw [e0]
    cases SandboxMethod.fromStr m with
    | ok method =>
      intro h
      have h' : method = SandboxMethod.None := h
      subst h'
      rfl
    | error e => exact hc

/-! ## Claim theorems -/

/-- C1 counterexample: the claim says an occurrence of the sandbox flag with
an attached value (`--sandbox=seatbelt`) is removed together with its value,
which would leave `["run"]`.  The loop compares arguments for exact equality
with `-s`/`--sandbox`, so the attached form is kept and the vector is returned
unchanged. -/
theorem filter_attached_flag_counterexample :
    "--sandbox".data.isPrefixOf "--sandbox=seatbelt".data = true ∧
    filter_sandbox_args ["--sandbox=seatbelt", "run"]
      = ["--sandbox=seatbelt", "run"] ∧
    filter_sandbox_args ["--sandbox=seatbelt", "run"] ≠ ["run"] := by
  refine ⟨by decide, (filter_sandbox_args_eq_rec _).trans (by decide), ?_⟩
  rw [filter_sandbox_args_eq_rec]
  decide

/-- C1 (amended): in `enter_seatbelt_sandbox`, every occurrence of the
sandbox-selection flag as a standalone argument exactly equal to `-s` or
`--sandbox` is removed, together with the following argument when one exists
and does not start with `-`; a following argument that starts with `-` is not
removed; a vector containing no standalone `-s`/`--sandbox` argument (even one
holding an attached-value spelling such as `--sandbox=seatbelt`) is returned
unchanged. -/
theorem filter_sandbox_args_amended :
    (∀ args : List String, (∀ a ∈ args, ¬(a = "-s" ∨ a = "--sandbox")) →
      filter_sandbox_args args = args) ∧
    (∀ (pre : List String) (f v : String) (rest : List String),
      (∀ a ∈ pre, ¬(a = "-s" ∨ a = "--sandbox")) →
      (f = "-s" ∨ f = "--sandbox") → startsWithDash v = false →
      filter_sandbox_args (pre ++ f :: v :: rest)
        = pre ++ filter_sandbox_args rest) ∧
    (∀ (pre : List String) (f v : String) (rest : List String),
      (∀ a ∈ pre, ¬(a = "-s" ∨ a = "--sandbox")) →
      (f = "-s" ∨ f = "--sandbox") → startsWithDash v = true →
      filter_sandbox_args (pre ++ f :: v :: rest)
        = pre ++ filter_sandbox_args (v :: rest)) ∧
    (∀ (pre : List String) (f : String),
      (∀ a ∈ pre, ¬(a = "-s" ∨ a = "--sandbox")) →
      (f = "-s" ∨ f = "--sandbox") →
      filter_sandbox_args (pre ++ [f]) = pre) := by
  refine ⟨?_, ?_, ?_, ?_⟩
  · intro args h
    rw [filter_sandbox_args_eq_rec]
    exact filterArgsRec_no_flag h
  · intro pre f v rest hpre hf hv
    rw [filter_sandbox_args_eq_rec, filter_sandbox_args_eq_rec,
      filterArgsRec_append_no_flag pre _ hpre]
    have : filterArgsRec (f :: v :: rest) = filterArgsRec rest := by
      rw [filterArgsRec, if_pos hf, if_neg (by rw [hv]; exact Bool.false_ne_true)]
    rw [this]
  · intro pre f v rest hpre hf hv
    rw [filter_sandbox_args_eq_rec, filter_sandbox_args_eq_rec,
      filterArgsRec_append_no_flag pre _ hpre]
    have : filterArgsRec (f :: v :: rest) = filterArgsRec (v :: rest) := by
      rw [filterArgsRec, if_pos hf, if_pos hv]
    rw [this]
  · intro pre f hpre hf
    rw [filter_sandbox_args_eq_rec, filterArgsRec_append_no_flag pre _ hpre]
    have : filterArgsRec [f] = [] := by
      rw [filterArgsRec, if_pos hf]
    rw [this, List.append_nil]

/-- C1 witness: the amended theorem instantiated on a concrete vector
containing the standalone flag with a separate value. -/
theorem filter_sandbox_args_amended_witness :
    filter_sandbox_args ["run", "--sandbox", "seatbelt", "-v"] = ["run", "-v"] := by
  have h2 := filter_sandbox_args_amended.2.1 ["run"] "--sandbox" "seatbelt" ["-v"]
    (by decide) (Or.inr rfl) (by decide)
  have h1 := filter_sandbox_args_amended.1 ["-v"] (by decide)
  simpa [h1] using h2

/-- C2: for every environment and method flag, if `GOOSE_SANDBOX_ACTIVE` is
set to any value, `maybe_enter_sandbox` takes the already-sandboxed branch,
which returns `Ok(())` immediately and spawns nothing. -/
theorem maybe_enter_sandbox_noop_when_sentinel (env : EnvMap)
    (method_flag : Option String) (v : String)
    (h : env "GOOSE_SANDBOX_ACTIVE" = some v) :
    maybe_enter_sandbox env method_flag = LaunchOutcome.alreadySandboxed ∧
    LaunchOutcome.maySpawn (maybe_enter_sandbox env method_flag) = false := by
  have hs : (env "GOOSE_SANDBOX_ACTIVE").isSome = true := by
    rw [h]
    rfl
  have e0 : maybe_enter_sandbox env method_flag = LaunchOutcome.alreadySandboxed := by
    unfold maybe_enter_sandbox
    rw [hs]
    rfl
  exact ⟨e0, by rw [e0]; rfl⟩

/-- C2 witness: the sentinel environment with a method flag also present. -/
theorem maybe_enter_sandbox_noop_when_sentinel_witness :
    maybe_enter_sandbox envSentinel (some "seatbelt")
      = LaunchOutcome.alreadySandboxed ∧
    LaunchOutcome.maySpawn (maybe_enter_sandbox envSentinel (some "seatbelt"))
      = false :=
  maybe_enter_sandbox_noop_when_sentinel envSentinel (some "seatbelt") "1" rfl

/-- C10: `maybe_enter_sandbox` matches the method string exactly and
case-sensitively — every non-empty string other than the six recognized
spellings (including `none`, `false`, `disabled`, `Seatbelt`, `TRUE`) lands in
the unsupported-method branch, which warns and returns success without
spawning — while `SandboxMethod::from_str` accepts the method names
case-insensitively. -/
theorem launcher_exact_match_vs_parser_case (env : EnvMap) (s : String)
    (h0 : env "GOOSE_SANDBOX_ACTIVE" = Option.none) (hne : s.data ≠ [])
    (h1 : s ≠ "seatbelt") (h2 : s ≠ "sandbox-exec") (h3 : s ≠ "true")
    (h4 : s ≠ "1") (h5 : s ≠ "docker") (h6 : s ≠ "podman") :
    (maybe_enter_sandbox env (some s) = LaunchOutcome.unsupportedWarning s ∧
      LaunchOutcome.maySpawn (LaunchOutcome.unsupportedWarning s) = false) ∧
    SandboxMethod.fromStr "Seatbelt" = .ok .Seatbelt ∧
    SandboxMethod.fromStr "SANDBOX-EXEC" = .ok .Seatbelt ∧
    SandboxMethod.fromStr "NONE" = .ok .None ∧
    SandboxMethod.fromStr "False" = .ok .None ∧
    SandboxMethod.fromStr "Disabled" = .ok .None ∧
    SandboxMethod.fromStr "DOCKER" = .ok .Docker ∧
    SandboxMethod.fromStr "PODMAN" = .ok .Podman := by
  refine ⟨⟨?_, rfl⟩, rfl, rfl, rfl, rfl, rfl, rfl, rfl⟩
  have hs : (env "GOOSE_SANDBOX_ACTIVE").isSome = false := by
    rw [h0]
    rfl
  have hemp : strIsEmpty s = false := by
    unfold strIsEmpty
    exact List.isEmpty_eq_false.mpr hne
  have hA : ¬(s = "seatbelt" ∨ s = "sandbox-exec" ∨ s = "true" ∨ s = "1") := by
    intro h
    rcases h with h | h | h | h
    exacts [h1 h, h2 h, h3 h, h4 h]
  have hB : ¬(s = "docker" ∨ s = "podman") := by
    intro h
    rcases h with h | h
    exacts [h5 h, h6 h]
  unfold maybe_enter_sandbox
  rw [hs]
  simp only [Bool.false_eq_true, if_false, Option.getD_some, hemp]
  rw [if_neg hA, if_neg hB]

/-- C10 witness: the uppercase spelling `TRUE` and the disable value `none`
both land in the unsupported-method branch. -/
theorem launcher_exact_match_vs_parser_case_witness :
    maybe_enter_sandbox envEmpty (some "TRUE")
      = LaunchOutcome.unsupportedWarning "TRUE" ∧
    maybe_enter_sandbox envEmpty (some "none")
      = LaunchOutcome.unsupportedWarning "none" :=
  ⟨(launcher_exact_match_vs_parser_case envEmpty "TRUE" rfl (by decide)
      (by decide) (by decide) (by decide) (by decide) (by decide)
      (by decide)).1.1,
   (launcher_exact_match_vs_parser_case envEmpty "none" rfl (by decide)
      (by decide) (by decide) (by decide) (by decide) (by decide)
      (by decide)).1.1⟩

/-- C4: on a non-macOS platform, with no CLI sandbox argument and
`GOOSE_SANDBOX` set to a string that lowercases to `true`, resolution yields a
disabled policy with method None, never an enabled policy with a
non-functional method. -/
theorem parse_sandbox_config_true_non_macos (env : EnvMap)
    (profile_arg : Option String) (s : String)
    (h : env "GOOSE_SANDBOX" = some s) (ht : strToLower s = "true") :
    (parse_sandbox_config env false Option.none profile_arg).enabled = false ∧
    (parse_sandbox_config env false Option.none profile_arg).method
      = SandboxMethod.None := by
  have h1 : applyEnvSandbox env false SandboxConfig.default
      = { SandboxConfig.default with
          method := SandboxMethod.None, enabled := false } := by
    rw [applyEnvSandbox_matched env false SandboxConfig.default h,
      fromStr_of_toLower_true ht, if_pos ht]
    rfl
  unfold parse_sandbox_config
  rw [h1, applyCliSandbox_none]
  constructor
  · rw [applyCliProfile_enabled, applyEnvProfile_enabled]
  · rw [applyCliProfile_method, applyEnvProfile_method]

/-- C4 witness: `GOOSE_SANDBOX=TrUe` on a non-macOS platform. -/
theorem parse_sandbox_config_true_non_macos_witness :
    (parse_sandbox_config envTrueMixed false Option.none Option.none).enabled
      = false ∧
    (parse_sandbox_config envTrueMixed false Option.none Option.none).method
      = SandboxMethod.None :=
  parse_sandbox_config_true_non_macos envTrueMixed Option.none "TrUe" rfl
    (by decide)

/-- C5: CLI values that parse override the environment completely (the
resolved policy is the one determined by the CLI method and profile strings,
whatever `GOOSE_SANDBOX` and `SEATBELT_PROFILE` hold); unparseable CLI or
environment strings leave the previously resolved value unchanged.
Resolution is total by construction (`parse_sandbox_config` returns a
`SandboxConfig`, not a result), so it never fails. -/
theorem parse_sandbox_config_cli_precedence :
    (∀ (env : EnvMap) (isMacos : Bool) (m p : String)
        (method : SandboxMethod) (prof : SeatbeltProfile),
      SandboxMethod.fromStr m = .ok method →
      SeatbeltProfile.fromStr p = .ok prof →
      parse_sandbox_config env isMacos (some (some m)) (some p)
        = { enabled := method ≠ SandboxMethod.None
            method := method
            profile := prof }) ∧
    (∀ (env : EnvMap) (isMacos : Bool) (m e : String)
        (profile_arg : Option String),
      SandboxMethod.fromStr m = .error e →
      parse_sandbox_config env isMacos (some (some m)) profile_arg
        = parse_sandbox_config env isMacos Option.none profile_arg) ∧
    (∀ (env : EnvMap) (isMacos : Bool) (sandbox_arg : Option (Option String))
        (p e : String),
      SeatbeltProfile.fromStr p = .error e →
      parse_sandbox_config env isMacos sandbox_arg (some p)
        = parse_sandbox_config env isMacos sandbox_arg Option.none) ∧
    (∀ (env : EnvMap) (isMacos : Bool) (c : SandboxConfig) (s e : String),
      env "GOOSE_SANDBOX" = some s → SandboxMethod.fromStr s = .error e →
      strToLower s ≠ "true" → applyEnvSandbox env isMacos c = c) ∧
    (∀ (env : EnvMap) (c : SandboxConfig) (p e : String),
      env "SEATBELT_PROFILE" = some p → SeatbeltProfile.fromStr p = .error e →
      applyEnvProfile env c = c) := by
  refine ⟨?_, ?_, ?_, ?_, ?_⟩
  · intro env isMacos m p method prof hm hp
    unfold parse_sandbox_config
    rw [applyCliSandbox_some_ok isMacos _ hm, applyCliProfile_some_ok _ hp]
  · intro env isMacos m e profile_arg hm
    unfold parse_sandbox_config
    rw [applyCliSandbox_some_err isMacos _ hm, applyCliSandbox_none]
  · intro env isMacos sandbox_arg p e hp
    unfold parse_sandbox_config
    rw [applyCliProfile_some_err _ hp, applyCliProfile_none]
  · intro env isMacos c s e hg hs ht
    rw [applyEnvSandbox_matched env isMacos c hg, hs, if_neg ht]
  · intro env c p e hg hp
    have e0 : applyEnvProfile env c =
        (match SeatbeltProfile.fromStr p with
         | .ok profile => { c with profile := profile }
         | .error _ => c) := by
      unfold applyEnvProfile
      rw [hg]
    rw [e0, hp]

/-- C5 witness: environment requesting docker/restrictive-open, CLI
requesting seatbelt/permissive-closed; the CLI wins. -/
theorem parse_sandbox_config_cli_precedence_witness :
    parse_sandbox_config envConflicting true (some (some "seatbelt"))
        (some "permissive-closed")
      = { enabled := true
          method := SandboxMethod.Seatbelt
          profile := SeatbeltProfile.PermissiveClosed } := by
  have h := parse_sandbox_config_cli_precedence.1 envConflicting true
    "seatbelt" "permissive-closed" SandboxMethod.Seatbelt
    SeatbeltProfile.PermissiveClosed rfl rfl
  exact h.trans (by decide)

/-- C8: every config produced by `parse_sandbox_config` satisfies the policy
invariant — if the method is None the policy is disabled (equivalently, no
branch enables the policy without also setting a method other than None); a
disabled policy still carries well-typed method and profile values by
construction. -/
theorem parse_sandbox_config_invariant (env : EnvMap) (isMacos : Bool)
    (sandbox_arg : Option (Option String)) (profile_arg : Option String)
    (h : (parse_sandbox_config env isMacos sandbox_arg profile_arg).method
      = SandboxMethod.None) :
    (parse_sandbox_config env isMacos sandbox_arg profile_arg).enabled
      = false := by
  have base : SandboxConfig.default.method = SandboxMethod.None →
      SandboxConfig.default.enabled = false := fun _ => rfl
  have i1 := applyEnvSandbox_inv env isMacos SandboxConfig.default base
  have i2 : (applyEnvProfile env
        (applyEnvSandbox env isMacos SandboxConfig.default)).method
        = SandboxMethod.None →
      (applyEnvProfile env
        (applyEnvSandbox env isMacos SandboxConfig.default)).enabled
        = false := by
    rw [applyEnvProfile_method, applyEnvProfile_enabled]
    exact i1
  have i3 := applyCliSandbox_inv sandbox_arg isMacos _ i2
  unfold parse_sandbox_config at h ⊢
  rw [applyCliProfile_method] at h
  rw [applyCliProfile_enabled]
  exact i3 h

/-- C8 witness: the empty environment with no CLI arguments resolves to
method None, and the invariant forces enabled to be false there. -/
theorem parse_sandbox_config_invariant_witness :
    (parse_sandbox_config envEmpty false Option.none Option.none).enabled
      = false :=
  parse_sandbox_config_invariant envEmpty false Option.none Option.none rfl

/-- C3: with the policy enabled and method Docker or Podman, `wrap_command`
always returns the structured not-implemented error — whose text names
Seatbelt on macOS as the alternative and how to disable sandboxing — and never
produces a runnable command (the only spawning this layer can cause). -/
theorem wrap_command_docker_podman_not_implemented (sys : SysEnv)
    (w : SandboxWrapper) (shell_config : ShellConfig) (command : String)
    (he : w.config.enabled = true)
    (hm : w.config.method = SandboxMethod.Docker ∨
      w.config.method = SandboxMethod.Podman) :
    (w.config.method = SandboxMethod.Docker →
      wrap_command sys w shell_config command
        = .error (dockerNotImplementedMsg sys.osName)) ∧
    (w.config.method = SandboxMethod.Podman →
      wrap_command sys w shell_config command
        = .error (podmanNotImplementedMsg sys.osName)) ∧
    (∀ c : Cmd, wrap_command sys w shell_config command ≠ .ok c) ∧
    (∀ osName : String,
      dockerNotImplementedMsg osName
        = "Docker sandboxing is not yet implemented. Available options:\n- "
          ++ ("On macOS: Use --sandbox=seatbelt"
          ++ ("\n- "
          ++ ("To disable: Remove --sandbox flag or unset GOOSE_SANDBOX"
          ++ ("\nCurrent platform: " ++ osName))))) ∧
    (∀ osName : String,
      podmanNotImplementedMsg osName
        = "Podman sandboxing is not yet implemented. Available options:\n- "
          ++ ("On macOS: Use --sandbox=seatbelt"
          ++ ("\n- "
          ++ ("To disable: Remove --sandbox flag or unset GOOSE_SANDBOX"
          ++ ("\nCurrent platform: " ++ osName))))) := by
  have hno : ¬(¬w.config.enabled = true ∨
      w.config.method = SandboxMethod.None) := by
    rcases hm with h | h <;> simp [he, h]
  have hD : w.config.method = SandboxMethod.Docker →
      wrap_command sys w shell_config command
        = .error (dockerNotImplementedMsg sys.osName) := by
    intro h
    unfold wrap_command
    rw [if_neg hno, h]
  have hP : w.config.method = SandboxMethod.Podman →
      wrap_command sys w shell_config command
        = .error (podmanNotImplementedMsg sys.osName) := by
    intro h
    unfold wrap_command
    rw [if_neg hno, h]
  refine ⟨hD, hP, ?_, fun osName => rfl, fun osName => rfl⟩
  intro c hc
  rcases hm with h | h
  · rw [hD h] at hc
    exact Except.noConfusion hc
  · rw [hP h] at hc
    exact Except.noConfusion hc

/-- C3 witness: Docker requested on a Linux host. -/
theorem wrap_command_docker_podman_not_implemented_witness :
    wrap_command sysLinux wrapperDocker shellSh "ls"
      = .error (dockerNotImplementedMsg "linux") :=
  (wrap_command_docker_podman_not_implemented sysLinux wrapperDocker shellSh
    "ls" rfl (Or.inl rfl)).1 rfl

/-- C7: for every profile (permissive tiers included), the command wrapper
resolves the profile to the fixed on-disk asset path derived by the filename
convention `<kebab-case-name>.sb`, and when that file does not exist (with the
earlier platform and tool checks passing) `wrap_command` fails with an error
naming the expected path, producing no command. -/
theorem wrap_command_profile_asset_missing (sys : SysEnv) (w : SandboxWrapper)
    (shell_config : ShellConfig) (command : String)
    (he : w.config.enabled = true)
    (hm : w.config.method = SandboxMethod.Seatbelt)
    (hmac : sys.isMacos = true) (hexec : sys.sandboxExecAvailable = true)
    (hfile : sys.fileExists (seatbeltProfileAssetPath sys.cwd w.config.profile)
      = false) :
    wrap_command sys w shell_config command
      = .error ("Seatbelt profile not found: "
          ++ seatbeltProfileAssetPath sys.cwd w.config.profile) ∧
    (∀ (cwd : String) (p : SeatbeltProfile),
      seatbeltProfileAssetPath cwd p
        = cwd ++ "/crates/goose-mcp/src/developer/profiles/"
            ++ p.profile_filename) ∧
    SeatbeltProfile.profile_filename .PermissiveOpen = "permissive-open.sb" ∧
    SeatbeltProfile.profile_filename .PermissiveClosed = "permissive-closed.sb" ∧
    SeatbeltProfile.profile_filename .RestrictiveOpen = "restrictive-open.sb" ∧
    SeatbeltProfile.profile_filename .RestrictiveClosed
      = "restrictive-closed.sb" := by
  refine ⟨?_, fun cwd p => rfl, rfl, rfl, rfl, rfl⟩
  have hpath : get_seatbelt_profile_path sys w
      = .error ("Seatbelt profile not found: "
          ++ seatbeltProfileAssetPath sys.cwd w.config.profile) := by
    have e0 : get_seatbelt_profile_path sys w =
        (if sys.fileExists (seatbeltProfileAssetPath sys.cwd w.config.profile)
         then .ok (seatbeltProfileAssetPath sys.cwd w.config.profile)
         else .error ("Seatbelt profile not found: "
             ++ seatbeltProfileAssetPath sys.cwd w.config.profile)) := rfl
    rw [e0, hfile]
    rfl
  have hno : ¬(¬w.config.enabled = true ∨
      w.config.method = SandboxMethod.None) := by
    simp [he, hm]
  unfold wrap_command
  rw [if_neg hno, hm]
  have e1 : create_seatbelt_command sys w shell_config command =
      (if ¬sys.isMacos then
        .error ("Seatbelt sandboxing is only available on macOS. Current platform: "
          ++ sys.osName
          ++ ". To disable sandboxing, remove the --sandbox flag or unset GOOSE_SANDBOX environment variable.")
      else if ¬sys.sandboxExecAvailable then
        .error "sandbox-exec command not found. Seatbelt sandboxing requires macOS with sandbox-exec available. This usually indicates an incomplete macOS installation."
      else
        match get_seatbelt_profile_path sys w with
        | .error e => .error e
        | .ok profile_path =>
          .ok { program := "sandbox-exec"
                args := ["-f", profile_path,
                         "-D", "project_dir=" ++ w.project_dir,
                         "-D", "home_dir=" ++ w.home_dir,
                         shell_config.executable]
                        ++ shell_config.args ++ [command] }) := rfl
  rw [e1, hmac, hexec, hpath]
  rfl

/-- C7 witness: restrictive-closed profile with no asset files on disk. -/
theorem wrap_command_profile_asset_missing_witness :
    wrap_command sysNoAssets wrapperSeatbeltRC shellSh "ls"
      = .error "Seatbelt profile not found: /repo/crates/goose-mcp/src/developer/profiles/restrictive-closed.sb" :=
  ((wrap_command_profile_asset_missing sysNoAssets wrapperSeatbeltRC shellSh
    "ls" rfl rfl rfl rfl rfl).1).trans (by rfl)

/-- C9: with the policy disabled or the method None, `wrap_command` returns
exactly the direct unwrapped invocation — the shell executable, its fixed
arguments, then the command string — built from the same inputs. -/
theorem wrap_command_disabled_direct (sys : SysEnv) (w : SandboxWrapper)
    (shell_config : ShellConfig) (command : String)
    (h : w.config.enabled = false ∨ w.config.method = SandboxMethod.None) :
    wrap_command sys w shell_config command
      = .ok (create_direct_command shell_config command) ∧
    create_direct_command shell_config command
      = { program := shell_config.executable
          args := shell_config.args ++ [command] } := by
  refine ⟨?_, rfl⟩
  unfold wrap_command
  rcases h with h | h
  · rw [if_pos (Or.inl (by simp [h]))]
  · rw [if_pos (Or.inr h)]

/-- C9 witness: the default disabled configuration on a Linux host. -/
theorem wrap_command_disabled_direct_witness :
    wrap_command sysLinux wrapperDisabled shellSh "echo hi"
      = .ok { program := "/bin/sh", args := ["-c", "echo hi"] } := by
  have h := wrap_command_disabled_direct sysLinux wrapperDisabled shellSh
    "echo hi" (Or.inl rfl)
  rw [h.1, h.2]
  rfl

/-- C6: with the resolved profile PermissiveOpen, working directory `/work`
and home `/home/u`, the inline policy text contains exactly three file-write
allow clauses — subtree-scoped to `/work`, `/home/u/.local/state/goose` and
`/home/u/.local/share/goose`, in that order — and exactly one universal
file-write deny clause, which precedes all three allow clauses. -/
theorem permissive_open_policy_write_clauses :
    permissiveOpenLines.filter isFileWriteAllowClause
      = ["(allow file-write* (subpath \"/work\"))",
         "(allow file-write* (subpath \"/home/u/.local/state/goose\"))",
         "(allow file-write* (subpath \"/home/u/.local/share/goose\"))"] ∧
    permissiveOpenLines.filter isFileWriteDenyClause = ["(deny file-write*)"] ∧
    permissiveOpenLines.findIdx isFileWriteDenyClause
      < permissiveOpenLines.findIdx
          (fun l => l == "(allow file-write* (subpath \"/work\"))") ∧
    permissiveOpenLines.findIdx isFileWriteDenyClause
      < permissiveOpenLines.findIdx
          (fun l => l == "(allow file-write* (subpath \"/home/u/.local/state/goose\"))") ∧
    permissiveOpenLines.findIdx isFileWriteDenyClause
      < permissiveOpenLines.findIdx
          (fun l => l == "(allow file-write* (subpath \"/home/u/.local/share/goose\"))") := by
  decide
